import Mathlib

/-!
Verification development for the COVID-19 dashboard pipeline
(`src/dashboard.py`).  The pandas/Dash program is shallowly embedded:
each module-level table transformation (melt, to_datetime, groupby-max,
merge, fillna) and the `update_visualizations` callback become executable
Lean definitions over explicit row lists, and the spec's claims are
settled as theorems about those definitions.
-/

namespace Dashboard

/-- Reads a maximal digit-free split of a character list at the dash
character, mirroring how an ISO `YYYY-MM-DD` date string is cut into its
components. -/
def splitOnDash : List Char → List (List Char)
  | [] => [[]]
  | c :: cs =>
    if c = '-' then [] :: splitOnDash cs
    else
      match splitOnDash cs with
      | [] => [[c]]
      | g :: gs => (c :: g) :: gs

/-- Numeric value of a non-empty all-digit character list, `none` otherwise. -/
def digitsToNat (l : List Char) : Option Nat :=
  if l ≠ [] ∧ l.all Char.isDigit then
    some (l.foldl (fun a c => a * 10 + (c.toNat - 48)) 0)
  else none

/-- Models `pd.to_datetime` restricted to ISO `YYYY-MM-DD` strings: a
successfully parsed date is encoded as the number `y*10000 + m*100 + d`;
any string that is not three dash-separated numeric components with a
plausible month and day yields `none` (pandas: `NaT` under
`errors="coerce"`, an exception under the default `errors="raise"`). -/
def parseDate (s : String) : Option Nat :=
  match splitOnDash s.data with
  | [y, m, d] =>
    match digitsToNat y, digitsToNat m, digitsToNat d with
    | some yn, some mn, some dn =>
      if 1 ≤ mn ∧ mn ≤ 12 ∧ 1 ≤ dn ∧ dn ≤ 31 then
        some (yn * 10000 + mn * 100 + dn)
      else none
    | _, _, _ => none
  | _ => none

/-- One row of a wide JHU-style CSV (`time_series_covid19_*_global.csv`):
the four identity columns `Province/State, Country/Region, Lat, Long`
followed by one numeric value per date column.  `Lat`/`Long` are kept as
integers; they are identity fields only and are never computed on. -/
structure WideRow where
  provinceState : Option String
  countryRegion : String
  lat : Int
  long : Int
  values : List Nat
  deriving DecidableEq

/-- A wide table: the list of date column labels plus the data rows. -/
structure WideTable where
  dateCols : List String
  rows : List WideRow
  deriving DecidableEq

/-- One row of the melted (long-format) confirmed/deaths table before
`pd.to_datetime` is applied: the `Date` field is still the raw column
label string (source lines 19-22 and 25-28). -/
structure MeltRow where
  provinceState : Option String
  countryRegion : String
  lat : Int
  long : Int
  date : String
  value : Nat
  deriving DecidableEq

/-- One row of the confirmed/deaths long table after
`pd.to_datetime(..., errors="raise")` has parsed the `Date` column
(source lines 23 and 29). -/
structure CaseRow where
  provinceState : Option String
  countryRegion : String
  lat : Int
  long : Int
  date : Nat
  value : Nat
  deriving DecidableEq

/-- One raw row of the OWID vaccination CSV, restricted to the columns
the program reads: `location`, `date` (a string), `total_vaccinations`
(possibly blank, i.e. NaN). -/
structure RawVacRow where
  location : String
  date : String
  total_vaccinations : Option Nat
  deriving DecidableEq

/-- One row of the processed vaccination table (source lines 32-34):
columns `Country`, `Date` (parsed with `errors="coerce"`, so possibly
`NaT` = `none`), `total_vaccinations`. -/
structure VacRow where
  country : String
  date : Option Nat
  total_vaccinations : Option Nat
  deriving DecidableEq

/-- One row of the merged snapshot table `country_data` (source lines
46-48): confirmed is always present (the row exists because the country
is in the confirmed summary), deaths may be NaN after the left merge,
and vaccinations are NaN-filled with 0 by `fillna(0)`. -/
structure CountryRow where
  country : String
  confirmed : Nat
  deaths : Option Nat
  total_vaccinations : Nat
  deriving DecidableEq

/-- The identity-column tuple of a wide row (the melt `id_vars`). -/
def wideIdentity (r : WideRow) : Option String × String × Int × Int :=
  (r.provinceState, r.countryRegion, r.lat, r.long)

/-- The identity-column tuple of a melted row. -/
def meltIdentity (m : MeltRow) : Option String × String × Int × Int :=
  (m.provinceState, m.countryRegion, m.lat, m.long)

/-- The block of melted rows contributed by one date column: one output
row per input row, carrying that row's value in column `j` (a row too
short to have a column `j` cannot occur in a rectangular frame and
contributes nothing). -/
def meltColumn (rows : List WideRow) (j : Nat) (d : String) : List MeltRow :=
  match rows with
  | [] => []
  | r :: rs =>
    match r.values[j]? with
    | some v => ⟨r.provinceState, r.countryRegion, r.lat, r.long, d, v⟩ :: meltColumn rs j d
    | none => meltColumn rs j d

/-- Worker for `melt`: stacks the per-date-column blocks in column
order, `j` being the index of the first remaining date column. -/
def meltAux (rows : List WideRow) (dates : List String) (j : Nat) : List MeltRow :=
  match dates with
  | [] => []
  | d :: ds => meltColumn rows j d ++ meltAux rows ds (j + 1)

/-- Models `DataFrame.melt(id_vars=[...], var_name="Date",
value_name=...)` (source lines 19-22 / 25-28): the output stacks, for
each date column in order, one row per input row — pandas melt is
column-major. -/
def melt (t : WideTable) : List MeltRow :=
  meltAux t.rows t.dateCols 0

/-- Models `pd.to_datetime` applied to the melted `Date` column with the
default `errors="raise"` (source lines 23 / 29): `none` models the
exception raised on the first unparsable date label. -/
def toDatetimeRaise (ms : List MeltRow) : Option (List CaseRow) :=
  ms.mapM (fun m =>
    (parseDate m.date).map (fun d =>
      ⟨m.provinceState, m.countryRegion, m.lat, m.long, d, m.value⟩))

/-- Models the vaccination processing (source lines 32-34):
`vaccination_data["Date"] = pd.to_datetime(vaccination_data["date"],
errors="coerce")`, then projection to `location`/`Date`/
`total_vaccinations` and the rename of `location` to `Country`.  Every
input row yields exactly one output row; an unparsable date becomes
`none` (NaT), it does not remove the row. -/
def vaccination_data (raw : List RawVacRow) : List VacRow :=
  raw.map (fun r => ⟨r.location, parseDate r.date, r.total_vaccinations⟩)

/-- Sum of the values of all melted rows carrying a given identity tuple
and date label: the re-aggregation (group by identity and date, sum)
used to state the melt round-trip property. -/
def sumAt (id0 : Option String × String × Int × Int) (d : String)
    (ms : List MeltRow) : Nat :=
  ((ms.filter (fun m => decide (meltIdentity m = id0 ∧ m.date = d))).map
    (fun m => m.value)).sum

/-- Lexicographic strict comparison of character lists. -/
def charListLt : List Char → List Char → Bool
  | [], [] => false
  | [], _ :: _ => true
  | _ :: _, [] => false
  | a :: as, b :: bs =>
    if a < b then true else if b < a then false else charListLt as bs

/-- Lexicographic strict comparison of strings (by code points), the
order pandas uses when sorting group keys. -/
def strLt (a b : String) : Bool :=
  charListLt a.data b.data

/-- Insertion of a string into a (sorted) list, comparing with the
lexicographic order on strings; used to model the sorted group keys
produced by pandas `groupby` (which sorts keys by default). -/
def insertSorted (s : String) : List String → List String
  | [] => [s]
  | t :: ts => if strLt s t then s :: t :: ts else t :: insertSorted s ts

/-- Insertion sort on strings. -/
def sortStrings (l : List String) : List String :=
  l.foldr insertSorted []

/-- The group keys a pandas `groupby` produces from a key column: the
distinct values, sorted ascending. -/
def groupKeys (l : List String) : List String :=
  sortStrings l.dedup

/-- Maximum of a list of naturals (0 for the empty list); the group is
never empty when this models a pandas per-group `.max()`. -/
def listMax (l : List Nat) : Nat :=
  l.foldl Nat.max 0

/-- Maximum of a list of possibly-NaN naturals, with pandas skip-NaN
semantics: `none` only when every entry is `none`. -/
def listMaxOpt (l : List (Option Nat)) : Option Nat :=
  l.foldl
    (fun a v =>
      match a, v with
      | none, v => v
      | some a, none => some a
      | some a, some v => some (Nat.max a v))
    none

/-- Models `df.groupby("Country/Region")[valueCol].max().reset_index()`
on a melted case/death table (source lines 37-41): one output pair per
distinct raw `Country/Region` string, in sorted key order, paired with
the maximum value over all of that country's rows (all provinces, all
dates). -/
def groupMaxSummary (rows : List CaseRow) : List (String × Nat) :=
  (groupKeys (rows.map (fun r => r.countryRegion))).map
    (fun k =>
      (k, listMax ((rows.filter (fun r => decide (r.countryRegion = k))).map
        (fun r => r.value))))

/-- Source line 37-38: `confirmed_data.groupby("Country/Region")
["Confirmed Cases"].max()`, renamed to column `Country`. -/
def confirmed_summary (conf : List CaseRow) : List (String × Nat) :=
  groupMaxSummary conf

/-- Source line 40-41: `deaths_data.groupby("Country/Region")
["Deaths"].max()`, renamed to column `Country`. -/
def deaths_summary (dth : List CaseRow) : List (String × Nat) :=
  groupMaxSummary dth

/-- Source line 43: `vaccination_data.groupby("Country")
["total_vaccinations"].max()`, with pandas skip-NaN max. -/
def vaccination_summary (vac : List VacRow) : List (String × Option Nat) :=
  (groupKeys (vac.map (fun r => r.country))).map
    (fun k =>
      (k, listMaxOpt ((vac.filter (fun r => decide (r.country = k))).map
        (fun r => r.total_vaccinations))))

/-- Source lines 46-48: the two left merges on `Country` followed by
`country_data["total_vaccinations"].fillna(0)`.  Each summary has at
most one row per key (groupby output), so the left merge keeps exactly
one output row per confirmed-summary row; a key missing from the deaths
summary leaves `deaths` as NaN (`none`), and `fillna(0)` turns a missing
or NaN vaccination value into 0. -/
def country_data (cs ds : List (String × Nat)) (vs : List (String × Option Nat)) :
    List CountryRow :=
  cs.map (fun kv =>
    { country := kv.1
      confirmed := kv.2
      deaths := (ds.find? (fun p => decide (p.1 = kv.1))).map (fun p => p.2)
      total_vaccinations :=
        match vs.find? (fun p => decide (p.1 = kv.1)) with
        | some p => p.2.getD 0
        | none => 0 })

/-- A row of `conf` with its `Province/State` identity removed; used to
state that the country grouping ignores the sub-national field. -/
def stripProvince (r : CaseRow) : CaseRow :=
  ⟨none, r.countryRegion, r.lat, r.long, r.date, r.value⟩

/-- Equality of `Except` values is decidable when it is on both sides. -/
instance {ε α : Type} [DecidableEq ε] [DecidableEq α] :
    DecidableEq (Except ε α) := fun x y =>
  match x, y with
  | Except.ok a, Except.ok b =>
    if h : a = b then isTrue (by rw [h])
    else isFalse (fun he => h (Except.ok.inj he))
  | Except.ok _, Except.error _ => isFalse (fun he => Except.noConfusion he)
  | Except.error _, Except.ok _ => isFalse (fun he => Except.noConfusion he)
  | Except.error e, Except.error f =>
    if h : e = f then isTrue (by rw [h])
    else isFalse (fun he => h (Except.error.inj he))

/-- An entry of a choropleth `z` column: the three metric columns are
numeric (NaN as `none`), while the `Country` column holds strings. -/
inductive ZVal where
  | num (v : Option Nat)
  | str (s : String)
  deriving DecidableEq

/-- The runtime failures the callback can hit: a pandas `KeyError` from
looking up a missing column of `country_data`, or a plotly error from
`px.line` being asked for a y column the filtered table does not have. -/
inductive Err where
  | keyError (col : String)
  | plotColumn (col : String)
  deriving DecidableEq

/-- The figures the callback returns: the empty `go.Figure()`, the
choropleth map (locations, z column, colorbar title, layout title), or
the `px.line` time series (its (Date, y) points and title). -/
inductive Figure where
  | empty
  | choropleth (locations : List String) (z : List ZVal)
      (colorbarTitle : String) (title : String)
  | line (points : List (Option Nat × Option Nat)) (title : String)
  deriving DecidableEq

/-- The `ts_data` frame selected by the callback's metric dispatch: the
vaccination table, or a case/death table together with the label of its
value column. -/
inductive TsData where
  | vacTable (rows : List VacRow)
  | caseTable (valueCol : String) (rows : List CaseRow)
  deriving DecidableEq

/-- Models `country_data[col]` (source line 131): the columns of the
merged frame are `Country`, `Confirmed Cases`, `Deaths`,
`total_vaccinations`; any other label raises a pandas `KeyError`. -/
def colLookup (cd : List CountryRow) (col : String) : Except Err (List ZVal) :=
  if col = "Country" then Except.ok (cd.map (fun r => ZVal.str r.country))
  else if col = "Confirmed Cases" then
    Except.ok (cd.map (fun r => ZVal.num (some r.confirmed)))
  else if col = "Deaths" then Except.ok (cd.map (fun r => ZVal.num r.deaths))
  else if col = "total_vaccinations" then
    Except.ok (cd.map (fun r => ZVal.num (some r.total_vaccinations)))
  else Except.error (Err.keyError col)

/-- The choropleth construction of source lines 128-138: locations are
`country_data["Country"]`, `z` is `country_data[selected_data]` (which
can raise `KeyError`), and the layout title interpolates the metric. -/
def map_figure (cd : List CountryRow) (col : String) : Except Err Figure :=
  match colLookup cd col with
  | Except.error e => Except.error e
  | Except.ok z =>
    Except.ok (Figure.choropleth (cd.map (fun r => r.country)) z col
      ("Global " ++ col ++ " Data"))

/-- The metric dispatch of source lines 141-146: `total_vaccinations`
selects the vaccination table, `Confirmed Cases` the confirmed table,
and any other value — `Deaths` or not — falls into the `else` branch
selecting the deaths table; each is filtered to the selected country. -/
def filter_ts (conf dth : List CaseRow) (vac : List VacRow)
    (country m : String) : TsData :=
  if m = "total_vaccinations" then
    TsData.vacTable (vac.filter (fun r => decide (r.country = country)))
  else if m = "Confirmed Cases" then
    TsData.caseTable "Confirmed Cases"
      (conf.filter (fun r => decide (r.countryRegion = country)))
  else
    TsData.caseTable "Deaths"
      (dth.filter (fun r => decide (r.countryRegion = country)))

/-- Models `ts_data.empty` (source line 149). -/
def tsEmpty : TsData → Bool
  | TsData.vacTable rows => rows.isEmpty
  | TsData.caseTable _ rows => rows.isEmpty

/-- Models `px.line(ts_data, x="Date", y=ycol, title=...)` (source lines
153-157): succeeds when `ycol` is the value column of the filtered
table, plotting one (Date, value) point per row; otherwise plotly fails
because the column is absent. -/
def pxLine (ts : TsData) (ycol : String) (title : String) : Except Err Figure :=
  match ts with
  | TsData.vacTable rows =>
    if ycol = "total_vaccinations" then
      Except.ok (Figure.line (rows.map (fun r => (r.date, r.total_vaccinations))) title)
    else Except.error (Err.plotColumn ycol)
  | TsData.caseTable vcol rows =>
    if ycol = vcol then
      Except.ok (Figure.line (rows.map (fun r => (some r.date, some r.value))) title)
    else Except.error (Err.plotColumn ycol)

/-- The Dash callback (source lines 122-160) as a function of the
reconciled stores and the two dropdown selections.  An empty (falsy)
selection short-circuits to two empty figures; otherwise the choropleth
is built (possibly raising `KeyError`), the time series table is
selected and filtered, an empty filter result yields an empty second
figure, and otherwise `px.line` renders the series. -/
def update_visualizations (cd : List CountryRow) (conf dth : List CaseRow)
    (vac : List VacRow) (selected_country selected_data : String) :
    Except Err (Figure × Figure) :=
  if selected_country = "" ∨ selected_data = "" then
    Except.ok (Figure.empty, Figure.empty)
  else
    match map_figure cd selected_data with
    | Except.error e => Except.error e
    | Except.ok mf =>
      let ts := filter_ts conf dth vac selected_country selected_data
      if tsEmpty ts then Except.ok (mf, Figure.empty)
      else
        match pxLine ts selected_data
            (selected_data ++ " Over Time in " ++ selected_country) with
        | Except.error e => Except.error e
        | Except.ok lf => Except.ok (mf, lf)

theorem mem_insertSorted (a s : String) (l : List String) :
    a ∈ insertSorted s l ↔ a = s ∨ a ∈ l := by
  induction l with
  | nil => simp [insertSorted]
  | cons t ts ih =>
    by_cases h : strLt s t
    · simp [insertSorted, h]
    · simp [insertSorted, h, ih]
      tauto

theorem mem_sortStrings (a : String) (l : List String) :
    a ∈ sortStrings l ↔ a ∈ l := by
  induction l with
  | nil => simp [sortStrings]
  | cons t ts ih =>
    simp only [sortStrings, List.foldr_cons] at *
    rw [mem_insertSorted, ih]
    simp

theorem mem_groupKeys (a : String) (l : List String) :
    a ∈ groupKeys l ↔ a ∈ l := by
  rw [groupKeys, mem_sortStrings, List.mem_dedup]

theorem foldl_max_init_le (l : List Nat) (a : Nat) :
    a ≤ l.foldl Nat.max a := by
  induction l generalizing a with
  | nil => exact Nat.le_refl a
  | cons x xs ih =>
    exact Nat.le_trans (Nat.le_max_left a x) (ih (Nat.max a x))

theorem le_foldl_max (l : List Nat) : ∀ (a x : Nat), x ∈ l → x ≤ l.foldl Nat.max a := by
  induction l with
  | nil => intro a x hx; cases hx
  | cons y ys ih =>
    intro a x hx
    rcases List.mem_cons.mp hx with h | h
    · subst h
      exact Nat.le_trans (Nat.le_max_right a x) (foldl_max_init_le ys (Nat.max a x))
    · exact ih (Nat.max a y) x h

theorem foldl_max_eq_or_mem (l : List Nat) :
    ∀ a : Nat, l.foldl Nat.max a = a ∨ l.foldl Nat.max a ∈ l := by
  induction l with
  | nil => intro a; exact Or.inl rfl
  | cons x xs ih =>
    intro a
    rw [List.foldl_cons]
    rcases ih (Nat.max a x) with h | h
    · rw [h]
      rcases Nat.le_total a x with hle | hle
      · have hm : Nat.max a x = x := by simp [Nat.max_def, hle]
        rw [hm]
        exact Or.inr (List.mem_cons_self x xs)
      · have hm : Nat.max a x = a := by
          simp [Nat.max_def]
          omega
        rw [hm]
        exact Or.inl rfl
    · exact Or.inr (List.mem_cons_of_mem x h)

theorem le_listMax (l : List Nat) (x : Nat) (hx : x ∈ l) : x ≤ listMax l :=
  le_foldl_max l 0 x hx

theorem listMax_mem (l : List Nat) (hl : l ≠ []) : listMax l ∈ l := by
  cases l with
  | nil => exact absurd rfl hl
  | cons x xs =>
    have hm : Nat.max 0 x = x := by simp [Nat.max_def]
    rw [listMax, List.foldl_cons, hm]
    rcases foldl_max_eq_or_mem xs x with h | h
    · rw [h]
      exact List.mem_cons_self x xs
    · exact List.mem_cons_of_mem x h

theorem groupMaxSummary_keys (rows : List CaseRow) (k : String) :
    k ∈ (groupMaxSummary rows).map (fun p => p.1) ↔
      k ∈ rows.map (fun r => r.countryRegion) := by
  rw [groupMaxSummary, List.map_map]
  simp only [Function.comp_def]
  rw [List.map_id']
  exact mem_groupKeys k _

theorem mem_groupMaxSummary (rows : List CaseRow) (k : String) (v : Nat)
    (h : (k, v) ∈ groupMaxSummary rows) :
    k ∈ rows.map (fun r => r.countryRegion) ∧
      v = listMax ((rows.filter (fun r => decide (r.countryRegion = k))).map
        (fun r => r.value)) := by
  rw [groupMaxSummary] at h
  rcases List.mem_map.mp h with ⟨k1, hk1, heq⟩
  have hk : k1 = k := congrArg Prod.fst heq
  subst hk
  refine ⟨(mem_groupKeys k1 _).mp hk1, ?_⟩
  exact (congrArg Prod.snd heq).symm

/-- Claim C8: the countries of the merged snapshot table are exactly the
raw `Country/Region` values occurring in the melted confirmed table —
the two left merges neither drop a confirmed-source country nor admit a
country that appears only in the deaths or vaccination sources. -/
theorem C8_universe_is_confirmed_countries
    (conf dth : List CaseRow) (vac : List VacRow) (c : String) :
    c ∈ (country_data (confirmed_summary conf) (deaths_summary dth)
          (vaccination_summary vac)).map (fun r => r.country) ↔
      c ∈ conf.map (fun r => r.countryRegion) := by
  rw [country_data, List.map_map]
  simp only [Function.comp_def]
  have hfst :
      ((confirmed_summary conf).map (fun kv => (ZVal.num none, kv.1).2)) =
        (confirmed_summary conf).map (fun p => p.1) := rfl
  rw [show
      ((confirmed_summary conf).map fun kv =>
        ({ country := kv.1, confirmed := kv.2,
           deaths := ((deaths_summary dth).find? fun p => decide (p.1 = kv.1)).map
             (fun p => p.2),
           total_vaccinations :=
             match (vaccination_summary vac).find? (fun p => decide (p.1 = kv.1)) with
             | some p => p.2.getD 0
             | none => 0 } : CountryRow).country) =
      ((confirmed_summary conf).map fun kv => kv.1) from rfl]
  exact groupMaxSummary_keys conf c

theorem groupMaxSummary_fst_mem (rows : List CaseRow) (p : String × Nat)
    (h : p ∈ groupMaxSummary rows) :
    p.1 ∈ rows.map (fun r => r.countryRegion) := by
  rw [groupMaxSummary] at h
  rcases List.mem_map.mp h with ⟨k, hk, heq⟩
  have : p.1 = k := by rw [← heq]
  rw [this]
  exact (mem_groupKeys k _).mp hk

theorem vaccination_summary_fst_mem (vac : List VacRow) (p : String × Option Nat)
    (h : p ∈ vaccination_summary vac) :
    p.1 ∈ vac.map (fun r => r.country) := by
  rw [vaccination_summary] at h
  rcases List.mem_map.mp h with ⟨k, hk, heq⟩
  have : p.1 = k := by rw [← heq]
  rw [this]
  exact (mem_groupKeys k _).mp hk

/-- Claim C1 counterexample: two sub-national rows of country `X` with
values 5 and 7 on the same date reconcile to the per-country maximum 7,
not to the claimed sum 12 — the code groups by country only and
aggregates with `max`. -/
theorem C1_cex_max_not_sum :
    confirmed_summary
        [⟨some "A", "X", 0, 0, 20200122, 5⟩, ⟨some "B", "X", 0, 0, 20200122, 7⟩] =
      [("X", 7)] ∧
    ("X", 12) ∉ confirmed_summary
        [⟨some "A", "X", 0, 0, 20200122, 5⟩, ⟨some "B", "X", 0, 0, 20200122, 7⟩] := by
  constructor
  · decide
  · decide

/-- Claim C1 amended: `confirmed_summary` groups the melted confirmed
records by the raw country string only (all provinces and all dates in
one group) and aggregates with the maximum, not the sum — every value of
the country's rows is bounded by the summary value and the summary value
is attained by one of the rows. -/
theorem C1_amended_group_max (conf : List CaseRow) (k : String) (v : Nat)
    (h : (k, v) ∈ confirmed_summary conf) :
    (∀ r ∈ conf, r.countryRegion = k → r.value ≤ v) ∧
      ∃ r, r ∈ conf ∧ r.countryRegion = k ∧ r.value = v := by
  obtain ⟨hk, hv⟩ := mem_groupMaxSummary conf k v h
  constructor
  · intro r hr hkr
    rw [hv]
    apply le_listMax
    exact List.mem_map.mpr
      ⟨r, List.mem_filter.mpr ⟨hr, by simp [hkr]⟩, rfl⟩
  · rcases List.mem_map.mp hk with ⟨r0, hr0, hk0⟩
    have hne :
        ((conf.filter (fun r => decide (r.countryRegion = k))).map
          (fun r => r.value)) ≠ [] := by
      apply List.ne_nil_of_mem
      exact List.mem_map.mpr
        ⟨r0, List.mem_filter.mpr ⟨hr0, by simp [hk0]⟩, rfl⟩
    have hmem := listMax_mem _ hne
    rw [← hv] at hmem
    obtain ⟨r, hrf, hrv⟩ := List.mem_map.mp hmem
    have hsplit := List.mem_filter.mp hrf
    exact ⟨r, hsplit.1, by simpa using hsplit.2, hrv⟩

theorem C1_amended_group_max_witness :
    ("X", 7) ∈ confirmed_summary
        [⟨some "A", "X", 0, 0, 20200122, 5⟩, ⟨some "B", "X", 0, 0, 20200122, 7⟩] ∧
      (5 : Nat) ≤ 7 :=
  ⟨by decide,
    (C1_amended_group_max
        [⟨some "A", "X", 0, 0, 20200122, 5⟩, ⟨some "B", "X", 0, 0, 20200122, 7⟩]
        "X" 7 (by decide)).1
      ⟨some "A", "X", 0, 0, 20200122, 5⟩ (by decide) rfl⟩

/-- Claim C4 counterexample: country `X` is in the confirmed universe
but absent from the deaths source; after the left merge its deaths
snapshot entry is NaN (`none`), not 0 — only the vaccination column is
`fillna(0)`-filled. -/
theorem C4_cex_deaths_not_zero_filled :
    country_data (confirmed_summary [⟨none, "X", 0, 0, 20200122, 5⟩])
        (deaths_summary []) (vaccination_summary []) =
      [⟨"X", 5, none, 0⟩] ∧
    (⟨"X", 5, none, 0⟩ : CountryRow).deaths ≠ some 0 := by
  constructor
  · decide
  · decide

/-- Claim C4 amended: the zero-fill rule holds only for vaccinations —
a universe country absent from the vaccination source gets snapshot
value 0 there, while a universe country absent from the deaths source
keeps an absent (NaN) deaths value. -/
theorem C4_amended_zero_fill_only_vaccinations
    (conf dth : List CaseRow) (vac : List VacRow) (r : CountryRow)
    (hr : r ∈ country_data (confirmed_summary conf) (deaths_summary dth)
      (vaccination_summary vac)) :
    (r.country ∉ dth.map (fun x => x.countryRegion) → r.deaths = none) ∧
      (r.country ∉ vac.map (fun x => x.country) → r.total_vaccinations = 0) := by
  rw [country_data] at hr
  obtain ⟨kv, hkv, hreq⟩ := List.mem_map.mp hr
  subst hreq
  constructor
  · intro hnot
    have hfind : (deaths_summary dth).find? (fun p => decide (p.1 = kv.1)) = none := by
      apply List.find?_eq_none.mpr
      intro x hx
      simp only [decide_eq_true_eq]
      intro hkeq
      exact hnot (by rw [← hkeq]; exact groupMaxSummary_fst_mem dth x hx)
    simp [hfind]
  · intro hnot
    have hfind : (vaccination_summary vac).find? (fun p => decide (p.1 = kv.1)) = none := by
      apply List.find?_eq_none.mpr
      intro x hx
      simp only [decide_eq_true_eq]
      intro hkeq
      exact hnot (by rw [← hkeq]; exact vaccination_summary_fst_mem vac x hx)
    simp [hfind]

theorem C4_amended_zero_fill_only_vaccinations_witness :
    (⟨"X", 5, none, 0⟩ : CountryRow).deaths = none ∧
      (⟨"X", 5, none, 0⟩ : CountryRow).total_vaccinations = 0 := by
  have h := C4_amended_zero_fill_only_vaccinations
    [⟨none, "X", 0, 0, 20200122, 5⟩] [] [] ⟨"X", 5, none, 0⟩ (by decide)
  exact ⟨h.1 (by decide), h.2 (by decide)⟩

/-- Claim C5 counterexample: the raw identifiers `"india"` and
`"India "` differ only in case and trailing whitespace, yet the summary
keeps them as two distinct country keys — no trimming or case-folding is
performed anywhere. -/
theorem C5_cex_no_normalization :
    confirmed_summary
        [⟨none, "india", 0, 0, 20200122, 1⟩, ⟨none, "India ", 0, 0, 20200122, 2⟩] =
      [("India ", 2), ("india", 1)] ∧
    ((confirmed_summary
        [⟨none, "india", 0, 0, 20200122, 1⟩,
          ⟨none, "India ", 0, 0, 20200122, 2⟩]).map (fun p => p.1)).length = 2 := by
  constructor
  · decide
  · decide

/-- Claim C5 amended: there is no normalization step — the country keys
of the summary are exactly the raw `Country/Region` strings of the
source rows (so strings differing in case or whitespace stay distinct
countries), while the `Province/State` field is indeed dropped: erasing
it from every row leaves the summary unchanged. -/
theorem C5_amended_raw_keys_drop_province (conf : List CaseRow) (k : String) :
    (k ∈ (confirmed_summary conf).map (fun p => p.1) ↔
      k ∈ conf.map (fun r => r.countryRegion)) ∧
    confirmed_summary (conf.map stripProvince) = confirmed_summary conf := by
  refine ⟨groupMaxSummary_keys conf k, ?_⟩
  rw [confirmed_summary, confirmed_summary, groupMaxSummary, groupMaxSummary]
  have hkeys : (conf.map stripProvince).map (fun r => r.countryRegion) =
      conf.map (fun r => r.countryRegion) := by
    rw [List.map_map]
    rfl
  rw [hkeys]
  apply List.map_congr_left
  intro a _
  have hfil : (conf.map stripProvince).filter (fun r => decide (r.countryRegion = a)) =
      (conf.filter (fun r => decide (r.countryRegion = a))).map stripProvince := by
    rw [List.filter_map]
    rfl
  rw [hfil, List.map_map]
  rfl

/-- Claim C2 counterexample: the metric dispatch of lines 141-146 sends
the unrecognized metric string `"not_a_metric"` into its `else` branch,
yielding exactly the Deaths table for the selected country — data for a
default metric, with no `UnknownMetric` failure anywhere in the code. -/
theorem C2_cex_dispatch_defaults_to_deaths :
    filter_ts [] [⟨none, "X", 0, 0, 20200101, 3⟩] [] "X" "not_a_metric" =
      filter_ts [] [⟨none, "X", 0, 0, 20200101, 3⟩] [] "X" "Deaths" ∧
    filter_ts [] [⟨none, "X", 0, 0, 20200101, 3⟩] [] "X" "not_a_metric" =
      TsData.caseTable "Deaths" [⟨none, "X", 0, 0, 20200101, 3⟩] := by
  constructor
  · decide
  · decide

/-- Claim C2 amended: a non-empty metric string that is not a column of
the merged table (`Country`, `Confirmed Cases`, `Deaths`,
`total_vaccinations`) makes the whole callback fail with the pandas
`KeyError` raised by `country_data[selected_data]` while building the
map — not with a typed `UnknownMetric` error; the history dispatch on
its own would have returned the Deaths data. -/
theorem C2_amended_key_error (cd : List CountryRow) (conf dth : List CaseRow)
    (vac : List VacRow) (c m : String) (hc : c ≠ "") (hm0 : m ≠ "")
    (h1 : m ≠ "Country") (h2 : m ≠ "Confirmed Cases") (h3 : m ≠ "Deaths")
    (h4 : m ≠ "total_vaccinations") :
    update_visualizations cd conf dth vac c m = Except.error (Err.keyError m) := by
  rw [update_visualizations, if_neg (by simp [hc, hm0])]
  rw [map_figure, colLookup, if_neg h1, if_neg h2, if_neg h3, if_neg h4]

theorem C2_amended_key_error_witness :
    update_visualizations [⟨"X", 5, none, 0⟩] [] [] [] "X" "not_a_metric" =
      Except.error (Err.keyError "not_a_metric") :=
  C2_amended_key_error [⟨"X", 5, none, 0⟩] [] [] [] "X" "not_a_metric"
    (by decide) (by decide) (by decide) (by decide) (by decide) (by decide)

/-- Claim C3 counterexample: a wide confirmed table with two
sub-national rows of country `X` for the one date column melts and
parses into two history records with the same (country, date); the
history served for `X` and the confirmed metric retains both, so the
(CountryKey, metric, date) triple has two records, not at most one. -/
theorem C3_cex_duplicate_dates :
    toDatetimeRaise (melt ⟨["2020-01-22"],
        [⟨some "A", "X", 0, 0, [5]⟩, ⟨some "B", "X", 0, 0, [7]⟩]⟩) =
      some [⟨some "A", "X", 0, 0, 20200122, 5⟩, ⟨some "B", "X", 0, 0, 20200122, 7⟩] ∧
    filter_ts [⟨some "A", "X", 0, 0, 20200122, 5⟩, ⟨some "B", "X", 0, 0, 20200122, 7⟩]
        [] [] "X" "Confirmed Cases" =
      TsData.caseTable "Confirmed Cases"
        [⟨some "A", "X", 0, 0, 20200122, 5⟩, ⟨some "B", "X", 0, 0, 20200122, 7⟩] ∧
    ([⟨some "A", "X", 0, 0, 20200122, 5⟩,
        ⟨some "B", "X", 0, 0, 20200122, 7⟩] : List CaseRow).map (fun r => r.date) =
      [20200122, 20200122] := by
  refine ⟨by decide, by decide, by decide⟩

/-- Claim C3 amended: the history is never deduplicated or aggregated —
for a country with at least one confirmed row, the callback's time
series contains exactly one point per melted source row of that country,
sub-national duplicates per date included. -/
theorem C3_amended_history_keeps_subnational_rows (cd : List CountryRow)
    (conf dth : List CaseRow) (vac : List VacRow) (c : String) (hc : c ≠ "")
    (hne : conf.filter (fun r => decide (r.countryRegion = c)) ≠ []) :
    update_visualizations cd conf dth vac c "Confirmed Cases" =
      Except.map
        (fun mf => (mf,
          Figure.line
            ((conf.filter (fun r => decide (r.countryRegion = c))).map
              (fun r => (some r.date, some r.value)))
            ("Confirmed Cases Over Time in " ++ c)))
        (map_figure cd "Confirmed Cases") := by
  rw [update_visualizations, if_neg (by simp [hc])]
  have hmap : map_figure cd "Confirmed Cases" =
      Except.ok (Figure.choropleth (cd.map (fun r => r.country))
        (cd.map (fun r => ZVal.num (some r.confirmed))) "Confirmed Cases"
        "Global Confirmed Cases Data") := rfl
  rw [hmap]
  have hts : filter_ts conf dth vac c "Confirmed Cases" =
      TsData.caseTable "Confirmed Cases"
        (conf.filter (fun r => decide (r.countryRegion = c))) := rfl
  rw [hts]
  cases hF : conf.filter (fun r => decide (r.countryRegion = c)) with
  | nil => exact absurd hF hne
  | cons x xs => rfl

theorem C3_amended_history_keeps_subnational_rows_witness :
    update_visualizations [] [⟨some "A", "X", 0, 0, 20200122, 5⟩] [] [] "X"
        "Confirmed Cases" =
      Except.map
        (fun mf => (mf,
          Figure.line
            ((([⟨some "A", "X", 0, 0, 20200122, 5⟩] : List CaseRow).filter
                (fun r => decide (r.countryRegion = "X"))).map
              (fun r => (some r.date, some r.value)))
            ("Confirmed Cases Over Time in " ++ "X")))
        (map_figure [] "Confirmed Cases") :=
  C3_amended_history_keeps_subnational_rows [] [⟨some "A", "X", 0, 0, 20200122, 5⟩]
    [] [] "X" (by decide) (by decide)

/-- Claim C6 counterexample: `"Atlantis"` never occurs in any source,
yet the history query for it succeeds with an empty time-series figure,
exactly as for the universe country `X` that merely has no deaths rows —
there is no `UnknownCountry` error and the two cases are not
distinguishable. -/
theorem C6_cex_unknown_country_not_an_error :
    update_visualizations
        (country_data (confirmed_summary [⟨none, "X", 0, 0, 20200101, 4⟩])
          (deaths_summary [⟨none, "Y", 0, 0, 20200101, 2⟩]) (vaccination_summary []))
        [⟨none, "X", 0, 0, 20200101, 4⟩] [⟨none, "Y", 0, 0, 20200101, 2⟩] []
        "Atlantis" "Deaths" =
      update_visualizations
        (country_data (confirmed_summary [⟨none, "X", 0, 0, 20200101, 4⟩])
          (deaths_summary [⟨none, "Y", 0, 0, 20200101, 2⟩]) (vaccination_summary []))
        [⟨none, "X", 0, 0, 20200101, 4⟩] [⟨none, "Y", 0, 0, 20200101, 2⟩] []
        "X" "Deaths" ∧
    update_visualizations
        (country_data (confirmed_summary [⟨none, "X", 0, 0, 20200101, 4⟩])
          (deaths_summary [⟨none, "Y", 0, 0, 20200101, 2⟩]) (vaccination_summary []))
        [⟨none, "X", 0, 0, 20200101, 4⟩] [⟨none, "Y", 0, 0, 20200101, 2⟩] []
        "Atlantis" "Deaths" =
      Except.ok (Figure.choropleth ["X"] [ZVal.num none] "Deaths" "Global Deaths Data",
        Figure.empty) := by
  constructor
  · decide
  · decide

/-- Claim C6 amended: whenever the selected country has no rows in the
deaths table — be it a universe country with no data or a country that
never occurs anywhere — the callback succeeds with the metric's map and
an empty time-series figure; no error distinguishes the two cases. -/
theorem C6_amended_empty_history_is_success (cd : List CountryRow)
    (conf dth : List CaseRow) (vac : List VacRow) (c : String) (hc : c ≠ "")
    (hnot : c ∉ dth.map (fun r => r.countryRegion)) :
    update_visualizations cd conf dth vac c "Deaths" =
      Except.ok (Figure.choropleth (cd.map (fun r => r.country))
        (cd.map (fun r => ZVal.num r.deaths)) "Deaths" "Global Deaths Data",
        Figure.empty) := by
  rw [update_visualizations, if_neg (by simp [hc])]
  have hfil : dth.filter (fun r => decide (r.countryRegion = c)) = [] := by
    rw [List.filter_eq_nil_iff]
    intro r hr
    simp only [decide_eq_true_eq]
    intro heq
    exact hnot (List.mem_map.mpr ⟨r, hr, heq⟩)
  have hts : filter_ts conf dth vac c "Deaths" =
      TsData.caseTable "Deaths" (dth.filter (fun r => decide (r.countryRegion = c))) :=
    rfl
  have hmap : map_figure cd "Deaths" =
      Except.ok (Figure.choropleth (cd.map (fun r => r.country))
        (cd.map (fun r => ZVal.num r.deaths)) "Deaths" "Global Deaths Data") := rfl
  rw [hmap]
  rw [hts, hfil]
  rfl

theorem C6_amended_empty_history_is_success_witness :
    update_visualizations [⟨"X", 4, none, 0⟩] [⟨none, "X", 0, 0, 20200101, 4⟩]
        [⟨none, "Y", 0, 0, 20200101, 2⟩] [] "Atlantis" "Deaths" =
      Except.ok (Figure.choropleth ["X"] [ZVal.num none] "Deaths" "Global Deaths Data",
        Figure.empty) := by
  have h := C6_amended_empty_history_is_success [⟨"X", 4, none, 0⟩]
    [⟨none, "X", 0, 0, 20200101, 4⟩] [⟨none, "Y", 0, 0, 20200101, 2⟩] []
    "Atlantis" (by decide) (by decide)
  exact h

/-- Claim C7 counterexample: a vaccination row whose date string does
not parse is not dropped — `errors="coerce"` keeps the row with a `NaT`
(`none`) date, so the reshaped table contains a record without a valid
parsed date. -/
theorem C7_cex_unparsable_date_row_kept :
    vaccination_data [⟨"X", "notadate", some 5⟩] = [⟨"X", none, some 5⟩] ∧
    (vaccination_data [⟨"X", "notadate", some 5⟩]).length = 1 := by
  constructor
  · decide
  · decide

/-- Claim C7 amended: the vaccination reshape keeps every input row —
the output has the same length as the input, and each raw row appears
with its date replaced by the result of the coercing parse (`none` when
unparsable), never removed. -/
theorem C7_amended_rows_kept_with_nat_dates (raw : List RawVacRow) :
    (vaccination_data raw).length = raw.length ∧
      ∀ r ∈ raw,
        (⟨r.location, parseDate r.date, r.total_vaccinations⟩ : VacRow) ∈
          vaccination_data raw := by
  constructor
  · exact List.length_map raw _
  · intro r hr
    exact List.mem_map.mpr ⟨r, hr, rfl⟩

theorem C7_amended_rows_kept_with_nat_dates_witness :
    (vaccination_data [⟨"X", "notadate", some 5⟩]).length = 1 ∧
      (⟨"X", none, some 5⟩ : VacRow) ∈ vaccination_data [⟨"X", "notadate", some 5⟩] := by
  have h := C7_amended_rows_kept_with_nat_dates [⟨"X", "notadate", some 5⟩]
  exact ⟨h.1, h.2 ⟨"X", "notadate", some 5⟩ (by decide)⟩

theorem fst_update_metric (cd : List CountryRow) (conf dth : List CaseRow)
    (vac : List VacRow) (c m : String) (hc : c ≠ "")
    (hm : m = "Confirmed Cases" ∨ m = "Deaths" ∨ m = "total_vaccinations") :
    Except.map Prod.fst (update_visualizations cd conf dth vac c m) =
      map_figure cd m := by
  rcases hm with rfl | rfl | rfl
  · rw [update_visualizations, if_neg (by simp [hc])]
    rw [show map_figure cd "Confirmed Cases" =
      Except.ok (Figure.choropleth (cd.map (fun r => r.country))
        (cd.map (fun r => ZVal.num (some r.confirmed))) "Confirmed Cases"
        "Global Confirmed Cases Data") from rfl]
    rw [show filter_ts conf dth vac c "Confirmed Cases" =
      TsData.caseTable "Confirmed Cases"
        (conf.filter (fun r => decide (r.countryRegion = c))) from rfl]
    cases hF : conf.filter (fun r => decide (r.countryRegion = c)) with
    | nil => rfl
    | cons x xs => rfl
  · rw [update_visualizations, if_neg (by simp [hc])]
    rw [show map_figure cd "Deaths" =
      Except.ok (Figure.choropleth (cd.map (fun r => r.country))
        (cd.map (fun r => ZVal.num r.deaths)) "Deaths" "Global Deaths Data") from rfl]
    rw [show filter_ts conf dth vac c "Deaths" =
      TsData.caseTable "Deaths"
        (dth.filter (fun r => decide (r.countryRegion = c))) from rfl]
    cases hF : dth.filter (fun r => decide (r.countryRegion = c)) with
    | nil => rfl
    | cons x xs => rfl
  · rw [update_visualizations, if_neg (by simp [hc])]
    rw [show map_figure cd "total_vaccinations" =
      Except.ok (Figure.choropleth (cd.map (fun r => r.country))
        (cd.map (fun r => ZVal.num (some r.total_vaccinations)))
        "total_vaccinations" "Global total_vaccinations Data") from rfl]
    rw [show filter_ts conf dth vac c "total_vaccinations" =
      TsData.vacTable (vac.filter (fun r => decide (r.country = c))) from rfl]
    cases hF : vac.filter (fun r => decide (r.country = c)) with
    | nil => rfl
    | cons x xs => rfl

/-- Claim C10: for any fixed selection of the metric dropdown (one of
the three metric values, or the cleared selection) the choropleth output
of the callback is the same whatever non-empty country is selected — the
map component depends only on the metric and the merged store, never on
the country. -/
theorem C10_map_independent_of_country (cd : List CountryRow)
    (conf dth : List CaseRow) (vac : List VacRow) (c1 c2 m : String)
    (h1 : c1 ≠ "") (h2 : c2 ≠ "")
    (hm : m = "Confirmed Cases" ∨ m = "Deaths" ∨ m = "total_vaccinations" ∨ m = "") :
    Except.map Prod.fst (update_visualizations cd conf dth vac c1 m) =
      Except.map Prod.fst (update_visualizations cd conf dth vac c2 m) := by
  rcases hm with hm | hm | hm | hm
  · rw [fst_update_metric cd conf dth vac c1 m h1 (Or.inl hm),
      fst_update_metric cd conf dth vac c2 m h2 (Or.inl hm)]
  · rw [fst_update_metric cd conf dth vac c1 m h1 (Or.inr (Or.inl hm)),
      fst_update_metric cd conf dth vac c2 m h2 (Or.inr (Or.inl hm))]
  · rw [fst_update_metric cd conf dth vac c1 m h1 (Or.inr (Or.inr hm)),
      fst_update_metric cd conf dth vac c2 m h2 (Or.inr (Or.inr hm))]
  · subst hm
    rw [update_visualizations, update_visualizations,
      if_pos (Or.inr rfl), if_pos (Or.inr rfl)]

theorem C10_map_independent_of_country_witness :
    Except.map Prod.fst (update_visualizations [⟨"X", 4, none, 0⟩]
        [⟨none, "X", 0, 0, 20200101, 4⟩] [] [] "India" "Confirmed Cases") =
      Except.map Prod.fst (update_visualizations [⟨"X", 4, none, 0⟩]
        [⟨none, "X", 0, 0, 20200101, 4⟩] [] [] "Brazil" "Confirmed Cases") :=
  C10_map_independent_of_country [⟨"X", 4, none, 0⟩]
    [⟨none, "X", 0, 0, 20200101, 4⟩] [] [] "India" "Brazil" "Confirmed Cases"
    (by decide) (by decide) (Or.inl rfl)

theorem meltColumn_cons (r : WideRow) (rs : List WideRow) (j : Nat) (d : String) :
    meltColumn (r :: rs) j d =
      match r.values[j]? with
      | some v =>
        ⟨r.provinceState, r.countryRegion, r.lat, r.long, d, v⟩ :: meltColumn rs j d
      | none => meltColumn rs j d := rfl

theorem meltAux_cons (rows : List WideRow) (d : String) (ds : List String) (j : Nat) :
    meltAux rows (d :: ds) j = meltColumn rows j d ++ meltAux rows ds (j + 1) := rfl

theorem sumAt_nil (id0 : Option String × String × Int × Int) (d : String) :
    sumAt id0 d [] = 0 := rfl

theorem sumAt_cons (id0 : Option String × String × Int × Int) (d : String)
    (m : MeltRow) (ms : List MeltRow) :
    sumAt id0 d (m :: ms) =
      (if meltIdentity m = id0 ∧ m.date = d then m.value else 0) + sumAt id0 d ms := by
  by_cases h : meltIdentity m = id0 ∧ m.date = d
  · rw [sumAt, List.filter_cons_of_pos (by simp [h]), List.map_cons, List.sum_cons,
      if_pos h, sumAt]
  · rw [sumAt, List.filter_cons_of_neg (by simp [h]), if_neg h, sumAt, Nat.zero_add]

theorem sumAt_append (id0 : Option String × String × Int × Int) (d : String)
    (xs ys : List MeltRow) :
    sumAt id0 d (xs ++ ys) = sumAt id0 d xs + sumAt id0 d ys := by
  induction xs with
  | nil => rw [List.nil_append, sumAt_nil, Nat.zero_add]
  | cons m ms ih => rw [List.cons_append, sumAt_cons, sumAt_cons, ih, Nat.add_assoc]

theorem sumAt_zero_of_date (id0 : Option String × String × Int × Int) (d : String) :
    ∀ ms : List MeltRow, (∀ m ∈ ms, m.date ≠ d) → sumAt id0 d ms = 0 := by
  intro ms
  induction ms with
  | nil => intro _; rfl
  | cons m ms ih =>
    intro h
    rw [sumAt_cons, if_neg (fun hc => h m (List.mem_cons_self m ms) hc.2), Nat.zero_add]
    exact ih (fun x hx => h x (List.mem_cons_of_mem m hx))

theorem sumAt_zero_of_identity (id0 : Option String × String × Int × Int) (d : String) :
    ∀ ms : List MeltRow, (∀ m ∈ ms, meltIdentity m ≠ id0) → sumAt id0 d ms = 0 := by
  intro ms
  induction ms with
  | nil => intro _; rfl
  | cons m ms ih =>
    intro h
    rw [sumAt_cons, if_neg (fun hc => h m (List.mem_cons_self m ms) hc.1), Nat.zero_add]
    exact ih (fun x hx => h x (List.mem_cons_of_mem m hx))

theorem mem_meltColumn (j : Nat) (d : String) (m : MeltRow) :
    ∀ rows : List WideRow, m ∈ meltColumn rows j d →
      m.date = d ∧ ∃ r, r ∈ rows ∧ meltIdentity m = wideIdentity r := by
  intro rows
  induction rows with
  | nil => intro h; cases h
  | cons r rs ih =>
    intro h
    rw [meltColumn_cons] at h
    cases hv : r.values[j]? with
    | none =>
      rw [hv] at h
      obtain ⟨hd, r', hr', hid⟩ := ih h
      exact ⟨hd, r', List.mem_cons_of_mem r hr', hid⟩
    | some v =>
      rw [hv] at h
      rcases List.mem_cons.mp h with heq | hmem
      · subst heq
        exact ⟨rfl, r, List.mem_cons_self r rs, rfl⟩
      · obtain ⟨hd, r', hr', hid⟩ := ih hmem
        exact ⟨hd, r', List.mem_cons_of_mem r hr', hid⟩

theorem mem_meltAux_date (rows : List WideRow) (m : MeltRow) :
    ∀ (dates : List String) (j : Nat), m ∈ meltAux rows dates j → m.date ∈ dates := by
  intro dates
  induction dates with
  | nil => intro j h; cases h
  | cons d ds ih =>
    intro j h
    rw [meltAux_cons] at h
    rcases List.mem_append.mp h with h1 | h1
    · rw [(mem_meltColumn j d m rows h1).1]
      exact List.mem_cons_self d ds
    · exact List.mem_cons_of_mem d (ih (j + 1) h1)

theorem sumAt_meltColumn (j : Nat) (d : String) (r : WideRow) (v : Nat) :
    ∀ rows : List WideRow, (rows.map wideIdentity).Nodup → r ∈ rows →
      r.values[j]? = some v → sumAt (wideIdentity r) d (meltColumn rows j d) = v := by
  intro rows
  induction rows with
  | nil => intro _ hr; cases hr
  | cons r0 rs ih =>
    intro hnd hr hv
    rw [List.map_cons, List.nodup_cons] at hnd
    rcases List.mem_cons.mp hr with heq | hmem
    · subst heq
      rw [meltColumn_cons, hv]
      show sumAt (wideIdentity r) d
        (⟨r.provinceState, r.countryRegion, r.lat, r.long, d, v⟩ :: meltColumn rs j d) = v
      rw [sumAt_cons, if_pos ⟨rfl, rfl⟩]
      have hz : sumAt (wideIdentity r) d (meltColumn rs j d) = 0 := by
        apply sumAt_zero_of_identity
        intro m hm
        obtain ⟨_, r', hr', hid⟩ := mem_meltColumn j d m rs hm
        rw [hid]
        intro hcon
        exact hnd.1 (hcon ▸ List.mem_map.mpr ⟨r', hr', rfl⟩)
      rw [hz]
      exact Nat.add_zero v
    · have hne : wideIdentity r0 ≠ wideIdentity r := by
        intro hcon
        exact hnd.1 (hcon ▸ List.mem_map.mpr ⟨r, hmem, rfl⟩)
      rw [meltColumn_cons]
      cases hv0 : r0.values[j]? with
      | none => exact ih hnd.2 hmem hv
      | some v0 =>
        show sumAt (wideIdentity r) d
          (⟨r0.provinceState, r0.countryRegion, r0.lat, r0.long, d, v0⟩ ::
            meltColumn rs j d) = v
        rw [sumAt_cons, if_neg (fun hc => hne hc.1), Nat.zero_add]
        exact ih hnd.2 hmem hv

theorem getElem?_of_drop : ∀ (j : Nat) (l : List Nat) (w : Nat) (ws : List Nat),
    l.drop j = w :: ws → l[j]? = some w := by
  intro j
  induction j with
  | zero =>
    intro l w ws h
    rw [List.drop_zero] at h
    rw [h]
    exact List.getElem?_cons_zero
  | succ j ih =>
    intro l w ws h
    cases l with
    | nil =>
      rw [List.drop_nil] at h
      cases h
    | cons x xs =>
      rw [List.drop_succ_cons] at h
      rw [List.getElem?_cons_succ]
      exact ih xs w ws h

theorem drop_succ_of_drop : ∀ (j : Nat) (l : List Nat) (w : Nat) (ws : List Nat),
    l.drop j = w :: ws → l.drop (j + 1) = ws := by
  intro j
  induction j with
  | zero =>
    intro l w ws h
    rw [List.drop_zero] at h
    subst h
    rw [List.drop_succ_cons, List.drop_zero]
  | succ j ih =>
    intro l w ws h
    cases l with
    | nil =>
      rw [List.drop_nil] at h
      cases h
    | cons x xs =>
      rw [List.drop_succ_cons] at h
      rw [List.drop_succ_cons]
      exact ih xs w ws h

theorem sumAt_meltAux (rows : List WideRow) (r : WideRow)
    (hnd : (rows.map wideIdentity).Nodup) (hr : r ∈ rows) :
    ∀ (dates : List String) (j : Nat), dates.Nodup →
      ∀ (d : String) (v : Nat), (d, v) ∈ dates.zip (r.values.drop j) →
        sumAt (wideIdentity r) d (meltAux rows dates j) = v := by
  intro dates
  induction dates with
  | nil =>
    intro j _ d v h
    cases h
  | cons d0 ds ih =>
    intro j hnd2 d v h
    rw [List.nodup_cons] at hnd2
    cases hdrop : r.values.drop j with
    | nil =>
      rw [hdrop] at h
      cases h
    | cons w ws =>
      rw [hdrop] at h
      have hj : r.values[j]? = some w := getElem?_of_drop j r.values w ws hdrop
      have hws : r.values.drop (j + 1) = ws := drop_succ_of_drop j r.values w ws hdrop
      rw [meltAux_cons, sumAt_append]
      rcases List.mem_cons.mp h with hhead | htail
      · simp only [List.zip_cons_cons, Prod.mk.injEq] at hhead
        obtain ⟨rfl, rfl⟩ := hhead
        rw [sumAt_meltColumn j d r v rows hnd hr hj]
        have hz : sumAt (wideIdentity r) d (meltAux rows ds (j + 1)) = 0 := by
          apply sumAt_zero_of_date
          intro m hm heq2
          exact hnd2.1 (heq2 ▸ mem_meltAux_date rows m ds (j + 1) hm)
        rw [hz, Nat.add_zero]
      · have hdm : d ∈ ds := (List.of_mem_zip htail).1
        have hdne : d ≠ d0 := fun hcon => hnd2.1 (hcon ▸ hdm)
        have hz1 : sumAt (wideIdentity r) d (meltColumn rows j d0) = 0 := by
          apply sumAt_zero_of_date
          intro m hm
          rw [(mem_meltColumn j d0 m rows hm).1]
          exact fun hcon => hdne hcon.symm
        rw [hz1, Nat.zero_add]
        exact ih (j + 1) hnd2.2 d v (by rw [hws]; exact htail)

theorem meltColumn_length (j : Nat) (d : String) :
    ∀ rows : List WideRow, (∀ r ∈ rows, j < r.values.length) →
      (meltColumn rows j d).length = rows.length := by
  intro rows
  induction rows with
  | nil => intro _; rfl
  | cons r rs ih =>
    intro h
    rw [meltColumn_cons]
    have hj : j < r.values.length := h r (List.mem_cons_self r rs)
    cases hv : r.values[j]? with
    | none =>
      exfalso
      rw [List.getElem?_eq_none_iff] at hv
      omega
    | some v =>
      rw [List.length_cons, ih (fun x hx => h x (List.mem_cons_of_mem r hx)),
        List.length_cons]

theorem meltAux_length :
    ∀ (dates : List String) (rows : List WideRow) (j : Nat),
      (∀ r ∈ rows, r.values.length = j + dates.length) →
      (meltAux rows dates j).length = rows.length * dates.length := by
  intro dates
  induction dates with
  | nil =>
    intro rows j _
    rw [show meltAux rows [] j = [] from rfl, List.length_nil, List.length_nil,
      Nat.mul_zero]
  | cons d ds ih =>
    intro rows j h
    rw [meltAux_cons, List.length_append]
    rw [meltColumn_length j d rows
      (fun r hr => by rw [h r hr, List.length_cons]; omega)]
    rw [ih rows (j + 1) (fun r hr => by rw [h r hr, List.length_cons]; omega)]
    rw [List.length_cons, Nat.mul_succ]
    omega

/-- Claim C9: melting a rectangular wide table with pairwise-distinct
identity rows and distinct date columns produces exactly
`rows × dateCols` long rows, and summing the melted values grouped by
(identity, date) recovers each original cell — the reshape neither loses
data nor invents any. -/
theorem C9_melt_roundtrip (t : WideTable)
    (hrect : ∀ r ∈ t.rows, r.values.length = t.dateCols.length)
    (hids : (t.rows.map wideIdentity).Nodup)
    (hdates : t.dateCols.Nodup) :
    (melt t).length = t.rows.length * t.dateCols.length ∧
      ∀ r ∈ t.rows, ∀ p ∈ t.dateCols.zip r.values,
        sumAt (wideIdentity r) p.1 (melt t) = p.2 := by
  constructor
  · rw [melt]
    exact meltAux_length t.dateCols t.rows 0
      (fun r hr => by rw [hrect r hr, Nat.zero_add])
  · intro r hr p hp
    rw [melt]
    apply sumAt_meltAux t.rows r hids hr t.dateCols 0 hdates p.1 p.2
    rw [List.drop_zero]
    cases p
    exact hp

theorem C9_melt_roundtrip_witness :
    (melt ⟨["2020-01-22"], [⟨none, "A", 0, 0, [5]⟩, ⟨none, "B", 0, 0, [7]⟩]⟩).length =
        2 * 1 ∧
      sumAt (none, "A", 0, 0) "2020-01-22"
        (melt ⟨["2020-01-22"], [⟨none, "A", 0, 0, [5]⟩, ⟨none, "B", 0, 0, [7]⟩]⟩) = 5 := by
  have h := C9_melt_roundtrip
    ⟨["2020-01-22"], [⟨none, "A", 0, 0, [5]⟩, ⟨none, "B", 0, 0, [7]⟩]⟩
    (by decide) (by decide) (by decide)
  exact ⟨h.1, h.2 ⟨none, "A", 0, 0, [5]⟩ (by decide) ("2020-01-22", 5) (by decide)⟩

end Dashboard
